import Mathlib

/-
Shallow embedding of MIDI-8-SEQUENCER-V1.02.ino (Arduino step sequencer).
C ints are modelled as Lean Int; the C `%` and `/` operators (truncated
toward zero) are Int.tmod and Int.tdiv.  The LED outputs are a list of 8
booleans.  Handlers that may call light_up_current_step return a Bool
recording whether that call happened (it always pulses the indicator).
The Arduino random(0, n) call is random() % n on a nonnegative long; it
is embedded by passing the raw random value as an oracle argument r.
-/

namespace MidiSeq

def NUM_OF_LEDS : Int := 8

def NUM_OF_CLOCK_DIVISIONS : Int := 5

def clock_division : List Int := [1, 3, 6, 12, 24]

structure State where
  clock_counter : Int
  step_counter : Int
  play_mode : Int
  is_playing : Bool
  pingpong_direction : Bool
  leds : List Bool
  deriving DecidableEq

def initState : State :=
  { clock_counter := 0, step_counter := 0, play_mode := 0, is_playing := false,
    pingpong_direction := true, leds := List.replicate NUM_OF_LEDS.toNat false }

/-- Arduino map(): (x - in_lo) * (out_hi - out_lo) / (in_hi - in_lo) + out_lo
with C truncated division. -/
def arduinoMap (x in_lo in_hi out_lo out_hi : Int) : Int :=
  Int.tdiv ((x - in_lo) * (out_hi - out_lo)) (in_hi - in_lo) + out_lo

/-- Arduino constrain(). -/
def constrain (x lo hi : Int) : Int :=
  if x < lo then lo else if x > hi then hi else x

/-- map(step_pot_value, 0, 1023, 1, NUM_OF_LEDS). -/
def step_pot_map (v : Int) : Int := arduinoMap v 0 1023 1 NUM_OF_LEDS

/-- map(clock_pot_value, 0, 1023, NUM_OF_CLOCK_DIVISIONS - 1, 0). -/
def clock_pot_map (v : Int) : Int := arduinoMap v 0 1023 (NUM_OF_CLOCK_DIVISIONS - 1) 0

/-- clock_division[clock_pot_mapped]. -/
def selected_division (v : Int) : Int := clock_division.getD (clock_pot_map v).toNat 0

/-- LED pattern written by light_up_current_step: LED i is HIGH iff i == step. -/
def led_pattern (step : Int) : List Bool :=
  (List.range NUM_OF_LEDS.toNat).map (fun i => decide ((i : Int) = step))

def light_up_current_step (s : State) : State :=
  { s with leds := led_pattern s.step_counter }

/-- The switch statement of message_clock: given play_mode, the current
step_counter, pingpong_direction, the mapped step count and the random
oracle, return the new step_counter and new pingpong_direction. -/
def advance_step (play_mode step_counter : Int) (pingpong_direction : Bool)
    (step_pot_mapped : Int) (r : Nat) : Int × Bool :=
  if play_mode = 1 then
    (Int.tmod (step_counter - 1 + step_pot_mapped) step_pot_mapped, pingpong_direction)
  else if play_mode = 2 then
    let moved := step_counter + (if pingpong_direction then 1 else -1)
    let dir := if moved ≥ step_pot_mapped - 1 ∨ moved ≤ 0 then !pingpong_direction
               else pingpong_direction
    (constrain moved 0 (step_pot_mapped - 1), dir)
  else if play_mode = 3 then
    (Int.tmod (r : Int) step_pot_mapped, pingpong_direction)
  else
    (Int.tmod (step_counter + 1) step_pot_mapped, pingpong_direction)

/-- MIDI clock handler.  Returns the new state and whether
light_up_current_step was called (step outputs rewritten, indicator pulsed). -/
def message_clock (s : State) (step_pot_value clock_pot_value : Int) (r : Nat) :
    State × Bool :=
  let step_pot_mapped := step_pot_map step_pot_value
  let clock_pot_selected := selected_division clock_pot_value
  let gate := Int.tmod s.clock_counter clock_pot_selected == 0
  let s1 :=
    if gate then
      let s0 :=
        if s.is_playing then
          let p := advance_step s.play_mode s.step_counter s.pingpong_direction
                     step_pot_mapped r
          { s with step_counter := p.1, pingpong_direction := p.2 }
        else s
      light_up_current_step s0
    else s
  ({ s1 with clock_counter := s.clock_counter + 1 }, gate)

/-- MIDI start handler. -/
def message_start (s : State) : State × Bool :=
  (light_up_current_step
    { s with is_playing := true, step_counter := 0, clock_counter := 0,
             pingpong_direction := true }, true)

/-- MIDI stop handler: clears is_playing and turns every LED off; never
calls light_up_current_step. -/
def message_stop (s : State) : State × Bool :=
  ({ s with is_playing := false, leds := List.replicate NUM_OF_LEDS.toNat false }, false)

/-- The button press edge branch of loop(). -/
def button_press (s : State) : State × Bool :=
  if s.is_playing then
    let pm := Int.tmod (s.play_mode + 1) 4
    ({ s with play_mode := pm,
              pingpong_direction := if pm = 2 then true else s.pingpong_direction }, false)
  else
    (light_up_current_step
      { s with step_counter := Int.tmod (s.step_counter + 1) NUM_OF_LEDS }, true)

/-- Trajectory of step values over n gated advances with a fixed mode and
step count (random oracle fixed at 0, irrelevant outside Random mode). -/
def advance_iter (play_mode step_pot_mapped step_counter : Int) (d : Bool) :
    Nat → List Int
  | 0 => []
  | Nat.succ k =>
    let p := advance_step play_mode step_counter d step_pot_mapped 0
    p.1 :: advance_iter play_mode step_pot_mapped p.1 p.2 k

/-- Claim C1: for every step count in [1,8] and every traversal mode, a gated
advance of the traversal engine yields a step in [0, step_count), even when
the previous step is at or above the (possibly shrunk) step count. -/
theorem C1_advance_in_range (pm s m : Int) (d : Bool) (r : Nat)
    (hs : 0 ≤ s) (hm1 : 1 ≤ m) (hm8 : m ≤ 8) :
    0 ≤ (advance_step pm s d m r).1 ∧ (advance_step pm s d m r).1 < m := by
  unfold advance_step
  by_cases h1 : pm = 1
  · rw [if_pos h1]
    exact ⟨Int.tmod_nonneg _ (by omega), Int.tmod_lt_of_pos _ (by omega)⟩
  rw [if_neg h1]
  by_cases h2 : pm = 2
  · rw [if_pos h2]
    cases d <;> simp [constrain] <;> split_ifs <;> omega
  rw [if_neg h2]
  by_cases h3 : pm = 3
  · rw [if_pos h3]
    exact ⟨Int.tmod_nonneg _ (by omega), Int.tmod_lt_of_pos _ (by omega)⟩
  rw [if_neg h3]
  exact ⟨Int.tmod_nonneg _ (by omega), Int.tmod_lt_of_pos _ (by omega)⟩

theorem C1_witness :
    0 ≤ (advance_step 1 9 true 4 0).1 ∧ (advance_step 1 9 true 4 0).1 < 4 :=
  C1_advance_in_range 1 9 4 true 0 (by decide) (by decide) (by decide)

/-- Claim C2 counterexample: in the initial (stopped) state a clock tick does
trigger the output notifier, because light_up_current_step sits outside the
is_playing test in message_clock. -/
theorem C2_counterexample :
    initState.is_playing = false ∧ (message_clock initState 0 0 0).2 = true := by
  decide

/-- Claim C2 (amended): while stopped, every tick increments the tick counter
and leaves the step unchanged, but the output notifier still fires exactly on
gated ticks, rewriting the step outputs to the current step. -/
theorem C2_stopped_tick (s : State) (a b : Int) (r : Nat)
    (h : s.is_playing = false) :
    (message_clock s a b r).1.step_counter = s.step_counter ∧
    (message_clock s a b r).1.clock_counter = s.clock_counter + 1 ∧
    (message_clock s a b r).2 = (Int.tmod s.clock_counter (selected_division b) == 0) ∧
    (message_clock s a b r).1.leds =
      (if Int.tmod s.clock_counter (selected_division b) == 0 then
        led_pattern s.step_counter else s.leds) := by
  simp only [message_clock, h, Bool.false_eq_true, if_false, light_up_current_step]
  split <;> simp

theorem C2_witness :
    (message_clock initState 0 0 0).1.step_counter = initState.step_counter ∧
    (message_clock initState 0 0 0).1.clock_counter = initState.clock_counter + 1 ∧
    (message_clock initState 0 0 0).2 =
      (Int.tmod initState.clock_counter (selected_division 0) == 0) ∧
    (message_clock initState 0 0 0).1.leds =
      (if Int.tmod initState.clock_counter (selected_division 0) == 0 then
        led_pattern initState.step_counter else initState.leds) :=
  C2_stopped_tick initState 0 0 0 rfl

/-- Claim C3 counterexample: in PingPong mode with step count 4, the
trajectory from step 0 going up is 1,2,3,2,1,0,1,2 — no step value, endpoint
or not, is ever held for two consecutive gated ticks. -/
theorem C3_counterexample :
    advance_iter 2 4 0 true 8 = [1, 2, 3, 2, 1, 0, 1, 2] ∧
    ∀ i < 7, (advance_iter 2 4 0 true 8).getD i 0 ≠
      (advance_iter 2 4 0 true 8).getD (i + 1) 0 := by
  decide

/-- Unfolded form of the PingPong case of the message_clock switch. -/
theorem advance_step_pingpong (s m : Int) (d : Bool) (r : Nat) :
    advance_step 2 s d m r =
      (constrain (s + (if d then 1 else -1)) 0 (m - 1),
       if s + (if d then 1 else -1) ≥ m - 1 ∨ s + (if d then 1 else -1) ≤ 0
       then !d else d) := rfl

/-- Claim C3 (amended): for step count at least 2, when a gated PingPong
advance lands on an endpoint (0 or step_count - 1), the direction has already
flipped, so the next gated advance moves off the endpoint: each endpoint is
the active step for exactly one gated tick per bounce. -/
theorem C3_endpoint_one_tick (s m : Int) (d : Bool) (r1 r2 : Nat)
    (hm : 2 ≤ m) (hs0 : 0 ≤ s) (hsm : s < m)
    (hend : (advance_step 2 s d m r1).1 = 0 ∨ (advance_step 2 s d m r1).1 = m - 1) :
    (advance_step 2 (advance_step 2 s d m r1).1 (advance_step 2 s d m r1).2 m r2).1 ≠
      (advance_step 2 s d m r1).1 := by
  rw [advance_step_pingpong] at hend
  rw [advance_step_pingpong, advance_step_pingpong]
  cases d <;> norm_num [constrain] at hend ⊢ <;>
    split_ifs at hend ⊢ <;> omega

theorem C3_witness :
    (advance_step 2 (advance_step 2 2 true 4 0).1 (advance_step 2 2 true 4 0).2 4 0).1 ≠
      (advance_step 2 2 true 4 0).1 :=
  C3_endpoint_one_tick 2 4 true 0 0 (by decide) (by decide) (by decide)
    (Or.inr (by decide))

/-- Claim C4: the clock divider gates an advance exactly when the tick
counter is divisible by the selected division factor, the tick counter is
incremented once after every tick regardless of gating, and with division
factor 3 (clock pot reading 800) ticks 0,3,6,9 gate open while ticks
1,2,4,5,7,8 do not. -/
theorem C4_clock_divider :
    (∀ (s : State) (a b : Int) (r : Nat),
      (message_clock s a b r).2 = (Int.tmod s.clock_counter (selected_division b) == 0) ∧
      (message_clock s a b r).1.clock_counter = s.clock_counter + 1) ∧
    selected_division 800 = 3 ∧
    (List.range 10).map
      (fun t => (message_clock { initState with clock_counter := (t : Int) } 0 800 0).2) =
      [true, false, false, true, false, false, true, false, false, true] := by
  refine ⟨fun s a b r => ⟨rfl, rfl⟩, by decide, by decide⟩

/-- Claim C5: from every prior state, a Start event sets is_playing, resets
the step counter, the tick counter and the ping-pong direction, and
immediately notifies the output of step 0. -/
theorem C5_start_resets (s : State) :
    (message_start s).1.is_playing = true ∧
    (message_start s).1.step_counter = 0 ∧
    (message_start s).1.clock_counter = 0 ∧
    (message_start s).1.pingpong_direction = true ∧
    (message_start s).1.leds = led_pattern 0 ∧
    (message_start s).2 = true :=
  ⟨rfl, rfl, rfl, rfl, rfl, rfl⟩

/-- Claim C6: a gated Reverse advance computes (step - 1 + step_count) mod
step_count, equal to the mathematical (nonnegative) modulus and never
negative, and with step count 4 starting at step 0 four gated ticks yield
3,2,1,0. -/
theorem C6_reverse (s m : Int) (d : Bool) (r : Nat) (hs : 0 ≤ s) (hm : 1 ≤ m) :
    (advance_step 1 s d m r).1 = (s - 1 + m) % m ∧
    0 ≤ (advance_step 1 s d m r).1 ∧
    advance_iter 1 4 0 true 4 = [3, 2, 1, 0] := by
  refine ⟨?_, Int.tmod_nonneg _ (by omega), by decide⟩
  show Int.tmod (s - 1 + m) m = (s - 1 + m) % m
  exact Int.tmod_eq_emod (by omega) (by omega)

theorem C6_witness :
    (advance_step 1 0 true 4 0).1 = (0 - 1 + 4) % 4 ∧
    0 ≤ (advance_step 1 0 true 4 0).1 ∧
    advance_iter 1 4 0 true 4 = [3, 2, 1, 0] :=
  C6_reverse 0 4 true 0 (by decide) (by decide)

/-- Claim C7: in PingPong mode with step count 4, starting at step 0 going
up, six gated ticks yield 1,2,3,2,1,0 and every value stays within [0,3]. -/
theorem C7_pingpong_sequence :
    advance_iter 2 4 0 true 6 = [1, 2, 3, 2, 1, 0] ∧
    ∀ x ∈ advance_iter 2 4 0 true 6, 0 ≤ x ∧ x ≤ 3 := by
  decide

/-- Claim C8: while stopped, a manual press edge advances the step counter
by one modulo the fixed hardware step count NUM_OF_LEDS = 8 (the handler
reads no potentiometer, so the dynamically read step count cannot enter),
and immediately notifies the output. -/
theorem C8_manual_step (s : State) (h : s.is_playing = false)
    (hs : 0 ≤ s.step_counter) :
    (button_press s).1.step_counter = (s.step_counter + 1) % NUM_OF_LEDS ∧
    NUM_OF_LEDS = 8 ∧
    (button_press s).1.leds = led_pattern ((s.step_counter + 1) % NUM_OF_LEDS) ∧
    (button_press s).2 = true := by
  have e : Int.tmod (s.step_counter + 1) NUM_OF_LEDS = (s.step_counter + 1) % NUM_OF_LEDS :=
    Int.tmod_eq_emod (by omega) (by decide)
  simp only [button_press, h, Bool.false_eq_true, if_false, light_up_current_step, e]
  refine ⟨?_, ?_, ?_, ?_⟩ <;> trivial

theorem C8_witness :
    (button_press initState).1.step_counter = (initState.step_counter + 1) % NUM_OF_LEDS ∧
    NUM_OF_LEDS = 8 ∧
    (button_press initState).1.leds =
      led_pattern ((initState.step_counter + 1) % NUM_OF_LEDS) ∧
    (button_press initState).2 = true :=
  C8_manual_step initState rfl (by decide)

/-- Claim C9: a Stop event only clears is_playing and the step outputs; the
step counter, tick counter, play mode and ping-pong direction are all
preserved, and no notification pulse fires. -/
theorem C9_stop_frame (s : State) :
    (message_stop s).1.is_playing = false ∧
    (message_stop s).1.leds = List.replicate NUM_OF_LEDS.toNat false ∧
    (message_stop s).1.step_counter = s.step_counter ∧
    (message_stop s).1.clock_counter = s.clock_counter ∧
    (message_stop s).1.play_mode = s.play_mode ∧
    (message_stop s).1.pingpong_direction = s.pingpong_direction ∧
    (message_stop s).2 = false :=
  ⟨rfl, rfl, rfl, rfl, rfl, rfl, rfl⟩

/-- Claim C10: for analog readings in [0,1023], the mapped step count lies
in [1,8], the mapped division index lies in [0,4] (in bounds for the
5-element clock_division array), and the selected division factor is
strictly positive, so every modulus in the tick handler has a positive
operand. -/
theorem C10_pot_mapping (v w : Int) (hv0 : 0 ≤ v) (hv1 : v ≤ 1023)
    (hw0 : 0 ≤ w) (hw1 : w ≤ 1023) :
    (1 ≤ step_pot_map v ∧ step_pot_map v ≤ 8) ∧
    (0 ≤ clock_pot_map w ∧ clock_pot_map w ≤ 4) ∧
    0 < selected_division w := by
  have e1 : step_pot_map v = Int.tdiv (v * 7) 1023 + 1 := by
    unfold step_pot_map arduinoMap NUM_OF_LEDS
    norm_num
  have b1 : 1 ≤ step_pot_map v ∧ step_pot_map v ≤ 8 := by
    rw [e1, Int.tdiv_eq_ediv (by omega) (by omega)]
    constructor <;> omega
  have e2 : clock_pot_map w = -Int.tdiv (w * 4) 1023 + 4 := by
    unfold clock_pot_map arduinoMap NUM_OF_CLOCK_DIVISIONS
    norm_num
  have b2 : 0 ≤ clock_pot_map w ∧ clock_pot_map w ≤ 4 := by
    rw [e2, Int.tdiv_eq_ediv (by omega) (by omega)]
    constructor <;> omega
  have b3 : 0 < selected_division w := by
    unfold selected_division clock_division
    have h4 : (clock_pot_map w).toNat ≤ 4 := by omega
    set n := (clock_pot_map w).toNat with hn
    interval_cases n <;> decide
  exact ⟨b1, b2, b3⟩

theorem C10_witness :
    (1 ≤ step_pot_map 512 ∧ step_pot_map 512 ≤ 8) ∧
    (0 ≤ clock_pot_map 512 ∧ clock_pot_map 512 ≤ 4) ∧
    0 < selected_division 512 :=
  C10_pot_mapping 512 512 (by decide) (by decide) (by decide) (by decide)

end MidiSeq
